import Mathlib

/-!
Shallow embedding of the kafta context-configuration manager:
`pkg/cmd/cli/config/create_context.go` (the `set-context` command: field
merge, validation, connectivity gate, persistence) and the broker
`get-configs` command (controller-broker default).  External effects
(TCP dials, the protocol-level cluster connection, interactive prompts,
the Kafka version parser from the sarama library) are parameters of the
embedded functions, so "no probe is attempted" can be stated as
independence from the corresponding parameter.
-/

namespace Kafta

/-- Go's `strings.Split` restricted to a one-character separator, on the
character list: splitting the empty list yields one empty segment, and
each occurrence of the separator starts a new segment (so `"a:"` has two
segments and a separator-free string has exactly one). -/
def splitChar (sep : Char) : List Char → List (List Char)
  | [] => [[]]
  | c :: cs =>
    let r := splitChar sep cs
    if c = sep then [] :: r
    else
      match r with
      | [] => [[c]]
      | seg :: rest => (c :: seg) :: rest

/-- `strings.Split(s, sep)` for a one-character `sep`, as a list of
strings. -/
def stringSplit (s : String) (sep : Char) : List String :=
  (splitChar sep s.data).map String.mk

/-- Modelled from the spec: the tri-state flag wrapper from the internal
flag package (not under `src/`): an "explicit optional-with-provenance
wrapper per field, not a bare nullable".  `provided` records whether the
flag's `Set` was ever called (`Provided()`); `value` is the stored string
(`Value()` / `String()`). -/
structure StringFlag where
  provided : Bool
  value : String
deriving Repr, DecidableEq

/-- `Set` on a flag: stores the string and marks the flag as provided. -/
def StringFlag.setV (_f : StringFlag) (s : String) : StringFlag :=
  { provided := true, value := s }

/-- A flag that was never set (Go zero value). -/
def StringFlag.unset : StringFlag := { provided := false, value := "" }

/-- Modelled from the spec: the `sasl` sub-record of a context profile
(`configuration.Context.SASL`, declared outside `src/`); fields as used by
`modifyContext` in `create_context.go`. -/
structure SASLConfig where
  algorithm : String
  username : String
  password : String
deriving Repr, DecidableEq

/-- Modelled from the spec: a context profile (`configuration.Context`,
declared outside `src/`), with exactly the fields read and written by
`create_context.go`: `BootstrapServers []string`, `KafkaVersion`,
`SchemaRegistry`, `Ksql`, `UseSASL`, `SASL`, `TLS`. -/
structure Context where
  bootstrapServers : List String
  kafkaVersion : String
  schemaRegistry : String
  ksql : String
  useSASL : Bool
  sasl : SASLConfig
  tls : Bool
deriving Repr, DecidableEq

/-- Modelled from the spec: `configuration.MakeContext()` (outside `src/`)
used by `run` when the name is absent from the store: "synthesize a
zero-value Context" — all Go zero values. -/
def MakeContext : Context :=
  { bootstrapServers := []
    kafkaVersion := ""
    schemaRegistry := ""
    ksql := ""
    useSASL := false
    sasl := { algorithm := "", username := "", password := "" }
    tls := false }

/-- The `createContextOptions` struct of `create_context.go`.  `useTLS`
is a plain boolean flag (cobra `BoolVar`, default `true`), the only field
without tri-state tracking. -/
structure CreateContextOptions where
  name : String
  currContext : Bool
  schemaRegistry : StringFlag
  ksql : StringFlag
  bootstrapServers : StringFlag
  version : StringFlag
  user : StringFlag
  password : StringFlag
  useSASL : StringFlag
  algorithm : StringFlag
  useTLS : Bool
  parsedVersion : String
  quiet : Bool
deriving Repr, DecidableEq

/-- `modifyContext` of `create_context.go` (lines 119-159).  The sarama
version parser (`sarama.ParseKafkaVersion` followed by `.String()`) is an
external library call, passed in as `parse`; a parse failure aborts the
command through `cmdutil.CheckErr`, modelled as `none`.  Each tri-state
flag overwrites its field only when provided; `TLS` is unconditionally
assigned from the `useTLS` flag. -/
def modifyContext (parse : String → Option String)
    (o : CreateContextOptions) (context : Context) : Option Context :=
  let m1 := if o.ksql.provided then { context with ksql := o.ksql.value } else context
  let m2 := if o.schemaRegistry.provided then
      { m1 with schemaRegistry := o.schemaRegistry.value } else m1
  let m3 := if o.bootstrapServers.provided then
      { m2 with bootstrapServers := stringSplit o.bootstrapServers.value ',' } else m2
  let m4o : Option Context :=
    if o.parsedVersion.length > 0 then
      match parse o.parsedVersion with
      | some v => some { m3 with kafkaVersion := v }
      | none => none
    else some m3
  match m4o with
  | none => none
  | some m4 =>
    let m5 := if o.useSASL.provided then { m4 with useSASL := true } else m4
    let m6 := if o.algorithm.provided then
        { m5 with sasl := { m5.sasl with algorithm := o.algorithm.value } } else m5
    let m7 := if o.user.provided then
        { m6 with sasl := { m6.sasl with username := o.user.value } } else m6
    let m8 := if o.password.provided then
        { m7 with sasl := { m7.sasl with password := o.password.value } } else m7
    some { m8 with tls := o.useTLS }

/-- `testHost` of `create_context.go` (lines 206-222).  An address whose
split on `:` has at most one segment is reported and rejected before any
dial; otherwise the result is that of the bounded TCP dial, abstracted as
the `dial` parameter (the probe connection is closed immediately either
way and never reused). -/
def testHost (dial : String → Bool) (address : String) : Bool :=
  if (stringSplit address ':').length ≤ 1 then false
  else dial address

/-- `validate` of `create_context.go` (lines 177-204), with the TCP dial
abstracted as `dial` (fed to `testHost`).  Errors are returned as
`Except.error` with the source's message strings. -/
def validate (dial : String → Bool) (o : CreateContextOptions) : Except String Unit :=
  if o.name.length == 0 && !o.currContext then
    .error "you must specify a non-empty context name or --current"
  else if o.name.length > 0 && o.currContext then
    .error "you cannot specify both a context name and --current"
  else if o.ksql.provided && !(testHost dial o.ksql.value) then
    .error "failed to connect on ksql"
  else if o.schemaRegistry.provided && !(testHost dial o.schemaRegistry.value) then
    .error "failed to connect on schema-registry"
  else if o.useSASL.provided && o.quiet then
    if !o.user.provided then .error "user flag is required if SASL is provided"
    else if !o.password.provided then .error "user flag is required if SASL is provided"
    else .ok ()
  else .ok ()

/-- `complete` of `create_context.go` (lines 161-175): at most one
positional argument becomes the context name, and `parsedVersion` is
filled from the `version` flag when that flag was provided. -/
def complete (args : List String) (o : CreateContextOptions) :
    Except String CreateContextOptions :=
  if args.length > 1 then .error "Unexpected args"
  else
    let o1 := match args with
      | a :: _ => { o with name := a }
      | [] => o
    .ok (if o1.version.provided then { o1 with parsedVersion := o1.version.value } else o1)

/-- The values the interactive UI would return if consulted
(`ui.GetText`, `ui.GetConfirmation`, `ui.GetPassword`); prompting
side-effects are modelled by passing these in. -/
structure Prompts where
  servers : String
  version : String
  saslConfirm : Bool
  algorithm : String
  user : String
  password : String
deriving Repr, DecidableEq

/-- `promptNeeded` of `create_context.go` (lines 236-301): a no-op in
quiet mode; otherwise fills, in source order, each still-missing required
flag (missing both from the flag set and from the base context) from the
prompt answers, mutating the options in place — modelled by returning the
updated options.  Schema registry and ksql are deliberately never
prompted (commented out in the source). -/
def promptNeeded (o : CreateContextOptions) (context : Context) (p : Prompts) :
    CreateContextOptions :=
  if o.quiet then o
  else
    let o1 := if !o.bootstrapServers.provided && context.bootstrapServers.length == 0 then
        { o with bootstrapServers := o.bootstrapServers.setV p.servers } else o
    let o2 := if !o1.version.provided && context.kafkaVersion.length == 0 then
        { o1 with version := o1.version.setV p.version } else o1
    if !o2.useSASL.provided then
      if p.saslConfirm then
        let o3 := { o2 with useSASL := o2.useSASL.setV "true" }
        let o4 := if !o3.algorithm.provided && context.sasl.algorithm.length == 0 then
            { o3 with algorithm := o3.algorithm.setV p.algorithm } else o3
        let o5 := if !o4.user.provided && context.sasl.username.length == 0 then
            { o4 with user := o4.user.setV p.user } else o4
        if !o5.password.provided && context.sasl.password.length == 0 then
          { o5 with password := o5.password.setV p.password } else o5
      else o2
    else o2

/-- `checkConnection` of `create_context.go` (lines 224-234): only when
the bootstrap-servers flag is provided, open a real protocol-level
connection (`kafka.MakeConnectionContext`, abstracted as the `connOk`
predicate on the merged context) and require it to succeed; otherwise no
connection is attempted and the check passes. -/
def checkConnection (connOk : Context → Bool) (o : CreateContextOptions)
    (context : Context) : Bool :=
  if o.bootstrapServers.provided then connOk context else true

/-- The `KaftaData` store as used by `run`: the current-context name and
the name-to-context map (`configuration` package, outside `src/`;
modelled from the spec's Configuration Store: `currentContext` plus
`contexts: mapping<name, Context>`). -/
structure KaftaData where
  currentContext : String
  contexts : String → Option Context

/-- `run` of `create_context.go` (lines 84-117): validate; resolve the
target name (`--current` requires a current context); load the starting
instance or make a zero context; interactively complete; merge; gate on
the cluster connection when bootstrap servers were provided; persist.
The result pairs the command outcome (`ok` carries the resolved name and
the pre-existence flag used for created-vs-modified reporting) with the
store after the invocation; every failure, including aborts through
`cmdutil.CheckErr`, leaves the store exactly as given. -/
def run (dial : String → Bool) (connOk : Context → Bool)
    (parse : String → Option String) (p : Prompts)
    (o : CreateContextOptions) (data : KaftaData) :
    Except String (String × Bool) × KaftaData :=
  match validate dial o with
  | .error e => (.error e, data)
  | .ok _ =>
    if o.currContext && data.currentContext.length == 0 then
      (.error "no current context is set", data)
    else
      let name := if o.currContext then data.currentContext else o.name
      let startingInstance := (data.contexts name).getD MakeContext
      let exist := (data.contexts name).isSome
      let o1 := promptNeeded o startingInstance p
      match modifyContext parse o1 startingInstance with
      | none => (.error "invalid version", data)
      | some context =>
        if checkConnection connOk o1 context then
          (.ok (name, exist),
           { data with contexts := fun n => if n = name then some context else data.contexts n })
        else
          (.error ("could not connect to " ++ String.intercalate "," context.bootstrapServers),
           data)

end Kafta

namespace KaftaBroker

/-- A broker as listed by `kafka.GetBrokers` (external query collaborator):
only `id` (`broker.ID()`, an integer) and `isController` are consulted by
the `get-configs` command. -/
structure BrokerSummary where
  id : Int
  isController : Bool
deriving Repr, DecidableEq

/-- The loop body of `defaultValue` in the broker command: `brokerId`
starts as the empty string and the loop assigns the decimal-formatted id
of the first controller broker, then breaks (`strconv.FormatInt(id, 10)`
is Lean's `toString` on `Int`). -/
def firstControllerId : List BrokerSummary → String
  | [] => ""
  | b :: bs => if b.isController then toString b.id else firstControllerId bs

/-- `defaultValue` of the broker `get-configs` command: with no argument,
list the brokers and take the first controller's id, failing with a help
error when `brokerId` stayed empty; with an argument, use it as-is. -/
def defaultValue (args : List String) (brokers : List BrokerSummary) :
    Except String String :=
  match args with
  | [] =>
    let brokerId := firstControllerId brokers
    if brokerId.length == 0 then .error "Impossible find BrokerId coordinator"
    else .ok brokerId
  | a :: _ => .ok a

/-- One row of `kafka.DescribeBrokerConfig` output: name, value, and the
is-default marker, rendered as the `NAME VALUE DEFAULT` table. -/
structure ConfigEntry where
  name : String
  value : String
  isDefault : Bool
deriving Repr, DecidableEq

/-- The `get-configs` command as a whole: `cmdutil.CheckErr` on
`defaultValue` aborts before `run` renders anything, so on error no
configuration table is produced; on success the table is the description
of the resolved broker id (`describe` abstracts `DescribeBrokerConfig`). -/
def getConfigs (args : List String) (brokers : List BrokerSummary)
    (describe : String → List ConfigEntry) :
    Except String (String × List ConfigEntry) :=
  match defaultValue args brokers with
  | .error e => .error e
  | .ok brokerId => .ok (brokerId, describe brokerId)

end KaftaBroker

namespace Kafta

/-- Options value with every tri-state flag unset and the boolean flags
at their cobra defaults (`--tls` defaults to `true`); used as the base of
concrete test inputs. -/
def emptyOptions : CreateContextOptions :=
  { name := ""
    currContext := false
    schemaRegistry := .unset
    ksql := .unset
    bootstrapServers := .unset
    version := .unset
    user := .unset
    password := .unset
    useSASL := .unset
    algorithm := .unset
    useTLS := true
    parsedVersion := ""
    quiet := false }

/-- Concrete invocation providing only the `--username` override. -/
def userOnlyOptions : CreateContextOptions :=
  { emptyOptions with name := "ctx", user := { provided := true, value := "alice" } }

/-- A store with no contexts and no current context. -/
def emptyData : KaftaData :=
  { currentContext := "", contexts := fun _ => none }

/-- Concrete invocation providing only the `--sasl` override. -/
def saslOnlyOptions : CreateContextOptions :=
  { emptyOptions with name := "ctx", useSASL := { provided := true, value := "" } }

/-- Concrete invocation providing a schema-registry address without a
`:port` suffix. -/
def noportOptions : CreateContextOptions :=
  { emptyOptions with
    name := "ctx"
    schemaRegistry := { provided := true, value := "noport" } }

/-- Prompt answers that decline everything (never consulted in quiet
mode). -/
def pNone : Prompts :=
  { servers := "", version := "", saslConfirm := false
    algorithm := "", user := "", password := "" }

/-- Concrete quiet invocation providing `--sasl` but no credentials. -/
def quietSaslNoCreds : CreateContextOptions :=
  { emptyOptions with
    name := "ctx"
    quiet := true
    useSASL := { provided := true, value := "" } }

/-- Concrete quiet invocation providing `--sasl`, `--username` and
`--password`. -/
def quietSaslCreds : CreateContextOptions :=
  { quietSaslNoCreds with
    user := { provided := true, value := "u" }
    password := { provided := true, value := "pw" } }

/-- Concrete quiet invocation providing `--server` explicitly. -/
def serverOptions : CreateContextOptions :=
  { emptyOptions with
    name := "ctx"
    quiet := true
    bootstrapServers := { provided := true, value := "b-1:9092,b-2:9092" } }

/-- Concrete quiet invocation with no `--server` override. -/
def noServerOptions : CreateContextOptions :=
  { emptyOptions with name := "ctx", quiet := true }

/-- A fully populated concrete base context with `tls = false`. -/
def ctxA : Context :=
  { bootstrapServers := ["h1:9092", "h2:9092"]
    kafkaVersion := "2.8.0"
    schemaRegistry := "sr:8081"
    ksql := "ksql:8088"
    useSASL := true
    sasl := { algorithm := "sha512", username := "u0", password := "pw0" }
    tls := false }

end Kafta

namespace Kafta

/-- Closed form of `modifyContext`: every field is an independent
conditional overwrite, `kafkaVersion` goes through the parser when a
version string is present, `tls` is always the flag's value. -/
theorem modifyContext_eq (parse : String → Option String)
    (o : CreateContextOptions) (c : Context) :
    modifyContext parse o c =
      (if o.parsedVersion.length > 0 then parse o.parsedVersion
       else some c.kafkaVersion).map fun kv =>
        { bootstrapServers :=
            if o.bootstrapServers.provided then stringSplit o.bootstrapServers.value ','
            else c.bootstrapServers
          kafkaVersion := kv
          schemaRegistry :=
            if o.schemaRegistry.provided then o.schemaRegistry.value else c.schemaRegistry
          ksql := if o.ksql.provided then o.ksql.value else c.ksql
          useSASL := if o.useSASL.provided then true else c.useSASL
          sasl :=
            { algorithm := if o.algorithm.provided then o.algorithm.value else c.sasl.algorithm
              username := if o.user.provided then o.user.value else c.sasl.username
              password := if o.password.provided then o.password.value else c.sasl.password }
          tls := o.useTLS } := by
  unfold modifyContext
  by_cases h1 : o.ksql.provided <;>
  by_cases h2 : o.schemaRegistry.provided <;>
  by_cases h3 : o.bootstrapServers.provided <;>
  by_cases h4 : o.parsedVersion.length > 0 <;>
  by_cases h5 : o.useSASL.provided <;>
  by_cases h6 : o.algorithm.provided <;>
  by_cases h7 : o.user.provided <;>
  by_cases h8 : o.password.provided <;>
  simp only [h1, h2, h3, h4, h5, h6, h7, h8, if_true, if_false, ite_true, ite_false,
    Option.map] <;>
  first
  | rfl
  | (cases parse o.parsedVersion <;> rfl)

/-- C2 (counterexample): merging an empty override set is not the
identity — with a base context storing `tls = false` and no flag
provided, the merged context has `tls = true` (the `--tls` flag's default
current value), so it is not equal to the base. -/
theorem C2_empty_merge_not_identity_cex :
    modifyContext (fun _ => none) emptyOptions MakeContext ≠ some MakeContext := by
  decide

/-- C2 (amended): every tri-state field with `Provided() = false` is left
unchanged by the merge (the version field is driven by `parsedVersion`,
which `complete` fills only when the `version` flag was provided); with
no field provided the merge returns the base with only `tls` overwritten
by the `--tls` flag's current value. -/
theorem C2_tri_state_non_destructive (parse : String → Option String)
    (o : CreateContextOptions) (base m : Context)
    (h : modifyContext parse o base = some m) :
    (o.ksql.provided = false → m.ksql = base.ksql) ∧
    (o.schemaRegistry.provided = false → m.schemaRegistry = base.schemaRegistry) ∧
    (o.bootstrapServers.provided = false → m.bootstrapServers = base.bootstrapServers) ∧
    (o.parsedVersion = "" → m.kafkaVersion = base.kafkaVersion) ∧
    (o.useSASL.provided = false → m.useSASL = base.useSASL) ∧
    (o.algorithm.provided = false → m.sasl.algorithm = base.sasl.algorithm) ∧
    (o.user.provided = false → m.sasl.username = base.sasl.username) ∧
    (o.password.provided = false → m.sasl.password = base.sasl.password) ∧
    (∀ args oc, complete args o = .ok oc → o.version.provided = false →
      oc.parsedVersion = o.parsedVersion) ∧
    (o.ksql.provided = false → o.schemaRegistry.provided = false →
      o.bootstrapServers.provided = false → o.parsedVersion = "" →
      o.useSASL.provided = false → o.algorithm.provided = false →
      o.user.provided = false → o.password.provided = false →
      m = { base with tls := o.useTLS }) := by
  rw [modifyContext_eq] at h
  have hcomplete : ∀ args oc, complete args o = .ok oc → o.version.provided = false →
      oc.parsedVersion = o.parsedVersion := by
    intro args oc hc hv
    unfold complete at hc
    by_cases hlen : args.length > 1
    · simp [hlen] at hc
    · simp only [hlen, if_false, ite_false] at hc
      cases args with
      | nil => simp [hv] at hc; rw [← hc]
      | cons a rest => simp [hv] at hc; rw [← hc]
  by_cases hpv : o.parsedVersion.length > 0
  · have hpv' : ¬ o.parsedVersion = "" := by
      intro he; rw [he] at hpv; simp at hpv
    simp only [hpv, if_true, ite_true] at h
    cases hp : parse o.parsedVersion with
    | none => rw [hp] at h; simp at h
    | some v =>
      rw [hp] at h
      simp only [Option.map_some'] at h
      injection h with h
      subst h
      refine ⟨?_, ?_, ?_, ?_, ?_, ?_, ?_, ?_, hcomplete, ?_⟩
      · intro hx; simp [hx]
      · intro hx; simp [hx]
      · intro hx; simp [hx]
      · intro hx; exact absurd hx hpv'
      · intro hx; simp [hx]
      · intro hx; simp [hx]
      · intro hx; simp [hx]
      · intro hx; simp [hx]
      · intro _ _ _ hx; exact absurd hx hpv'
  · simp only [hpv, if_false, ite_false, Option.map_some'] at h
    injection h with h
    subst h
    refine ⟨?_, ?_, ?_, ?_, ?_, ?_, ?_, ?_, hcomplete, ?_⟩
    · intro hx; simp [hx]
    · intro hx; simp [hx]
    · intro hx; simp [hx]
    · intro hx; simp
    · intro hx; simp [hx]
    · intro hx; simp [hx]
    · intro hx; simp [hx]
    · intro hx; simp [hx]
    · intro h1 h2 h3 h4 h5 h6 h7 h8
      simp [h1, h2, h3, h5, h6, h7, h8]

/-- C2 (witness): applying the amended tri-state theorem to the empty
override set over the concrete base `ctxA` yields exactly `ctxA` with
`tls` replaced by the flag's current value. -/
theorem C2_tri_state_non_destructive_witness :
    modifyContext (fun _ => none) emptyOptions ctxA = some { ctxA with tls := true } ∧
    ({ ctxA with tls := true } : Context) = { ctxA with tls := emptyOptions.useTLS } := by
  refine ⟨by decide, ?_⟩
  exact (C2_tri_state_non_destructive (fun _ => none) emptyOptions ctxA
    { ctxA with tls := true } (by decide)).2.2.2.2.2.2.2.2.2
    (by decide) (by decide) (by decide) (by decide) (by decide) (by decide) (by decide)
    (by decide)

/-- C3 (counterexample): providing only the `--username` override (a
SASL-related override) does not enable SASL — the merged context still
has `UseSASL = false`, contradicting the claim that any SASL-related
override forces `UseSASL = true`. -/
theorem C3_username_only_does_not_enable_sasl_cex :
    userOnlyOptions.user.provided = true ∧
    (modifyContext (fun _ => none) userOnlyOptions MakeContext).map Context.useSASL =
      some false := by
  decide

/-- C3 (amended): only the `--sasl` flag itself enables SASL: if the
sasl-usage override is provided the merged context has `UseSASL = true`;
if it is not provided, `UseSASL` keeps the base value even when
algorithm, username, or password overrides are provided; and no merge
through this path ever changes `UseSASL` from true to false. -/
theorem C3_sasl_flag_latch (parse : String → Option String)
    (o : CreateContextOptions) (base m : Context)
    (h : modifyContext parse o base = some m) :
    (o.useSASL.provided = true → m.useSASL = true) ∧
    (o.useSASL.provided = false → m.useSASL = base.useSASL) ∧
    (base.useSASL = true → m.useSASL = true) := by
  rw [modifyContext_eq] at h
  cases hk : (if o.parsedVersion.length > 0 then parse o.parsedVersion
      else some base.kafkaVersion) with
  | none => rw [hk] at h; simp at h
  | some v =>
    rw [hk] at h
    simp only [Option.map_some'] at h
    injection h with h
    subst h
    refine ⟨?_, ?_, ?_⟩ <;> intro hx <;> simp [hx]

/-- C3 (witness): providing `--sasl` over the zero context yields a
merged context with `UseSASL = true`. -/
theorem C3_sasl_flag_latch_witness :
    modifyContext (fun _ => none) saslOnlyOptions MakeContext =
      some { MakeContext with useSASL := true, tls := true } ∧
    ({ MakeContext with useSASL := true, tls := true } : Context).useSASL = true := by
  refine ⟨by decide, ?_⟩
  exact (C3_sasl_flag_latch (fun _ => none) saslOnlyOptions MakeContext
    { MakeContext with useSASL := true, tls := true } (by decide)).1 rfl

/-- C4: the merged context's `tls` field always equals the `--tls` flag's
current value, for every base context and every override set (the flag
defaults to true and has no tri-state tracking, so the base's stored
value is always overwritten). -/
theorem C4_tls_always_from_flag (parse : String → Option String)
    (o : CreateContextOptions) (base m : Context)
    (h : modifyContext parse o base = some m) :
    m.tls = o.useTLS := by
  rw [modifyContext_eq] at h
  cases hk : (if o.parsedVersion.length > 0 then parse o.parsedVersion
      else some base.kafkaVersion) with
  | none => rw [hk] at h; simp at h
  | some v =>
    rw [hk] at h
    simp only [Option.map_some'] at h
    injection h with h
    subst h
    rfl

/-- C4 (witness): the empty override set over `ctxA` (which stores
`tls = false`) produces a merged context with `tls` equal to the flag's
default `true`. -/
theorem C4_tls_always_from_flag_witness :
    modifyContext (fun _ => none) emptyOptions ctxA = some { ctxA with tls := true } ∧
    ({ ctxA with tls := true } : Context).tls = emptyOptions.useTLS := by
  refine ⟨by decide, ?_⟩
  exact C4_tls_always_from_flag (fun _ => none) emptyOptions ctxA
    { ctxA with tls := true } (by decide)

/-- C5: the merge is idempotent — applying `modifyContext` twice with the
same override set (including an aborted version parse, which aborts both
times) equals applying it once. -/
theorem C5_merge_idempotent (parse : String → Option String)
    (o : CreateContextOptions) (base : Context) :
    (modifyContext parse o base).bind (modifyContext parse o) =
      modifyContext parse o base := by
  by_cases hpv : o.parsedVersion.length > 0
  · cases hp : parse o.parsedVersion with
    | none => simp [modifyContext_eq, hpv, hp]
    | some v =>
      simp only [modifyContext_eq, hpv, ite_true, hp, Option.map_some', Option.some_bind]
      congr 1
      by_cases h1 : o.ksql.provided <;>
      by_cases h2 : o.schemaRegistry.provided <;>
      by_cases h3 : o.bootstrapServers.provided <;>
      by_cases h5 : o.useSASL.provided <;>
      by_cases h6 : o.algorithm.provided <;>
      by_cases h7 : o.user.provided <;>
      by_cases h8 : o.password.provided <;>
      simp [h1, h2, h3, h5, h6, h7, h8]
  · simp only [modifyContext_eq, hpv, ite_false, Option.map_some', Option.some_bind]
    by_cases h1 : o.ksql.provided <;>
    by_cases h2 : o.schemaRegistry.provided <;>
    by_cases h3 : o.bootstrapServers.provided <;>
    by_cases h5 : o.useSASL.provided <;>
    by_cases h6 : o.algorithm.provided <;>
    by_cases h7 : o.user.provided <;>
    by_cases h8 : o.password.provided <;>
    simp [h1, h2, h3, h5, h6, h7, h8]

/-- C10: only provided-ness of the `--sasl` flag is consulted, never its
underlying string value (so `--sasl=false` or an empty value still
enables SASL): if the flag is provided the merged `UseSASL` is true, the
merged `UseSASL` is false only when the base's was already false (SASL
cannot be disabled through this command), and replacing the flag's value
by any string leaves the whole merge result unchanged. -/
theorem C10_sasl_value_ignored (parse : String → Option String)
    (o : CreateContextOptions) (base m : Context)
    (h : modifyContext parse o base = some m) :
    (o.useSASL.provided = true → m.useSASL = true) ∧
    (m.useSASL = false → base.useSASL = false) ∧
    (∀ v, modifyContext parse
        { o with useSASL := { provided := o.useSASL.provided, value := v } } base =
      modifyContext parse o base) := by
  have hval : ∀ v, modifyContext parse
      { o with useSASL := { provided := o.useSASL.provided, value := v } } base =
      modifyContext parse o base := by
    intro v
    rw [modifyContext_eq, modifyContext_eq]
  rw [modifyContext_eq] at h
  cases hk : (if o.parsedVersion.length > 0 then parse o.parsedVersion
      else some base.kafkaVersion) with
  | none => rw [hk] at h; simp at h
  | some v =>
    rw [hk] at h
    simp only [Option.map_some'] at h
    injection h with h
    subst h
    refine ⟨fun hx => by simp [hx], fun hx => ?_, hval⟩
    by_cases hs : o.useSASL.provided <;> simp [hs] at hx ⊢
    exact hx

/-- C10 (witness): `--sasl` provided with underlying value `"false"`
still yields `UseSASL = true`, and changing the value string does not
change the merge at all. -/
theorem C10_sasl_value_ignored_witness :
    modifyContext (fun _ => none)
        { saslOnlyOptions with useSASL := { provided := true, value := "false" } }
        MakeContext =
      some { MakeContext with useSASL := true, tls := true } ∧
    ({ MakeContext with useSASL := true, tls := true } : Context).useSASL = true := by
  refine ⟨by decide, ?_⟩
  exact (C10_sasl_value_ignored (fun _ => none)
    { saslOnlyOptions with useSASL := { provided := true, value := "false" } }
    MakeContext { MakeContext with useSASL := true, tls := true } (by decide)).1 rfl

/-- C6: exactly one of an explicit name and `--current` must be given:
an empty name without `--current` and a non-empty name with `--current`
each fail validation with the corresponding usage error, while exactly
one of the two never triggers either usage error (whatever the dial
outcome and remaining flags). -/
theorem C6_name_current_mutual_exclusion (dial : String → Bool)
    (o : CreateContextOptions) :
    (o.name.length = 0 → o.currContext = false →
      validate dial o = .error "you must specify a non-empty context name or --current") ∧
    (o.name.length > 0 → o.currContext = true →
      validate dial o = .error "you cannot specify both a context name and --current") ∧
    ((o.name.length > 0 ∧ o.currContext = false) ∨
        (o.name.length = 0 ∧ o.currContext = true) →
      validate dial o ≠ .error "you must specify a non-empty context name or --current" ∧
      validate dial o ≠ .error "you cannot specify both a context name and --current") := by
  refine ⟨?_, ?_, ?_⟩
  · intro h1 h2
    unfold validate
    simp [h1, h2]
  · intro h1 h2
    unfold validate
    simp [h1, h2, Nat.pos_iff_ne_zero.mp h1]
  · intro hx
    have hcond1 : (o.name.length == 0 && !o.currContext) ≠ true := by
      rcases hx with ⟨h1, h2⟩ | ⟨h1, h2⟩
      · simp [h2, Nat.pos_iff_ne_zero.mp h1]
      · simp [h1, h2]
    have hcond2 : (o.name.length > 0 && o.currContext) ≠ true := by
      rcases hx with ⟨h1, h2⟩ | ⟨h1, h2⟩ <;> simp [h1, h2]
    refine ⟨?_, ?_⟩ <;> (unfold validate; split_ifs <;> simp_all)

/-- C6 (witness): neither name nor `--current` rejects; both reject;
a name alone does not trigger a usage error. -/
theorem C6_name_current_mutual_exclusion_witness :
    validate (fun _ => true) emptyOptions =
      .error "you must specify a non-empty context name or --current" ∧
    validate (fun _ => true) { emptyOptions with name := "ctx", currContext := true } =
      .error "you cannot specify both a context name and --current" ∧
    validate (fun _ => true) { emptyOptions with name := "ctx" } ≠
      .error "you must specify a non-empty context name or --current" := by
  refine ⟨?_, ?_, ?_⟩
  · exact (C6_name_current_mutual_exclusion (fun _ => true) emptyOptions).1 rfl rfl
  · exact (C6_name_current_mutual_exclusion (fun _ => true)
      { emptyOptions with name := "ctx", currContext := true }).2.1 (by decide) rfl
  · exact ((C6_name_current_mutual_exclusion (fun _ => true)
      { emptyOptions with name := "ctx" }).2.2 (Or.inl ⟨by decide, rfl⟩)).1

/-- C8: an address whose split on `:` has at most one segment is
rejected by `testHost` for every dial function (so no TCP connect can
influence or precede the rejection), and any `set-context` invocation
providing it as the ksql or schema-registry address fails validation. -/
theorem C8_address_syntax_gate (address : String)
    (h : (stringSplit address ':').length ≤ 1) :
    (∀ dial, testHost dial address = false) ∧
    (∀ dial (o : CreateContextOptions), o.ksql.provided = true →
      o.ksql.value = address → validate dial o ≠ .ok ()) ∧
    (∀ dial (o : CreateContextOptions), o.schemaRegistry.provided = true →
      o.schemaRegistry.value = address → validate dial o ≠ .ok ()) := by
  have hth : ∀ dial, testHost dial address = false := by
    intro dial; unfold testHost; simp [h]
  refine ⟨hth, ?_, ?_⟩ <;>
  · intro dial o hp hv
    unfold validate
    split_ifs <;> simp_all [hth dial]

/-- C8 (witness): the portless address `"noport"` is syntactically
rejected even under an always-reachable prober, and providing it as the
schema-registry address makes validation fail. -/
theorem C8_address_syntax_gate_witness :
    (stringSplit "noport" ':').length ≤ 1 ∧
    testHost (fun _ => true) "noport" = false ∧
    validate (fun _ => true) noportOptions ≠ .ok () := by
  refine ⟨by decide, ?_, ?_⟩
  · exact (C8_address_syntax_gate "noport" (by decide)).1 (fun _ => true)
  · exact (C8_address_syntax_gate "noport" (by decide)).2.2 (fun _ => true) _ rfl rfl

end Kafta

namespace KaftaBroker

/-- `Nat.toDigitsCore` only ever grows its accumulator. -/
theorem toDigitsCore_length_le (b : Nat) :
    ∀ (fuel n : Nat) (ds : List Char),
      ds.length ≤ (Nat.toDigitsCore b fuel n ds).length := by
  intro fuel
  induction fuel with
  | zero => intro n ds; simp [Nat.toDigitsCore]
  | succ f ih =>
    intro n ds
    unfold Nat.toDigitsCore
    by_cases h : n / b = 0
    · simp [h]
    · simp only [h, if_false, ite_false]
      calc ds.length ≤ (Nat.digitChar (n % b) :: ds).length := by simp
        _ ≤ _ := ih _ _

/-- The decimal digit list of a natural number is never empty. -/
theorem toDigits_ne_nil (b n : Nat) : Nat.toDigits b n ≠ [] := by
  unfold Nat.toDigits Nat.toDigitsCore
  by_cases h : n / b = 0
  · simp [h]
  · simp only [h, if_false, ite_false]
    intro hc
    have hlen := toDigitsCore_length_le b n (n / b) [Nat.digitChar (n % b)]
    rw [hc] at hlen
    simp at hlen

/-- The decimal rendering of an integer (Go's `strconv.FormatInt(_, 10)`,
Lean's `toString`) is never the empty string. -/
theorem length_toString_int_pos (i : Int) : 0 < (toString i).length := by
  show 0 < (Int.repr i).length
  cases i with
  | ofNat m =>
    simp only [Int.repr, Nat.repr]
    show 0 < (List.asString _).length
    have hne := toDigits_ne_nil 10 m
    cases hh : Nat.toDigits 10 m with
    | nil => exact absurd hh hne
    | cons c cs => simp [List.asString, String.length, hh]
  | negSucc m =>
    show 0 < ("-" ++ Nat.repr (Nat.succ m) : String).length
    rw [String.length_append]
    have hone : ("-" : String).length = 1 := rfl
    omega

/-- If no listed broker is the controller, the loop leaves `brokerId`
empty. -/
theorem firstControllerId_eq_empty (brokers : List BrokerSummary)
    (h : ∀ b ∈ brokers, b.isController = false) :
    firstControllerId brokers = "" := by
  induction brokers with
  | nil => rfl
  | cons b bs ih =>
    have hb := h b (List.mem_cons_self b bs)
    simp only [firstControllerId, hb, Bool.false_eq_true, if_false, ite_false]
    exact ih fun x hx => h x (List.mem_cons_of_mem b hx)

/-- The loop stops at the first controller and formats its id. -/
theorem firstControllerId_eq_first (pre post : List BrokerSummary)
    (b : BrokerSummary) (hpre : ∀ x ∈ pre, x.isController = false)
    (hb : b.isController = true) :
    firstControllerId (pre ++ b :: post) = toString b.id := by
  induction pre with
  | nil => simp [firstControllerId, hb]
  | cons x xs ih =>
    have hx := hpre x (List.mem_cons_self x xs)
    simp only [List.cons_append, firstControllerId, hx, Bool.false_eq_true, if_false,
      ite_false]
    exact ih fun y hy => hpre y (List.mem_cons_of_mem x hy)

/-- C9: with no argument, `get-configs` targets the first listed broker
whose `isController` flag is set (its id formatted in decimal); if no
listed broker is the controller the command fails with the help error
before any configuration table is produced; with an explicit argument the
argument is used as-is and the broker list is never consulted. -/
theorem C9_controller_default (brokers : List BrokerSummary)
    (describe : String → List ConfigEntry) :
    ((∀ b ∈ brokers, b.isController = false) →
      getConfigs [] brokers describe = .error "Impossible find BrokerId coordinator") ∧
    (∀ pre b post, brokers = pre ++ b :: post →
      (∀ x ∈ pre, x.isController = false) → b.isController = true →
      defaultValue [] brokers = .ok (toString b.id)) ∧
    (∀ a rest, defaultValue (a :: rest) brokers = .ok a ∧
      getConfigs (a :: rest) brokers describe = .ok (a, describe a)) := by
  refine ⟨?_, ?_, ?_⟩
  · intro h
    unfold getConfigs defaultValue
    rw [firstControllerId_eq_empty brokers h]
    rfl
  · intro pre b post hsplit hpre hb
    unfold defaultValue
    rw [hsplit, firstControllerId_eq_first pre post b hpre hb]
    have hpos := length_toString_int_pos b.id
    have hne : ((toString b.id).length == 0) = false := by
      simp only [beq_eq_false_iff_ne, ne_eq]
      omega
    simp [hne]
  · intro a rest
    exact ⟨rfl, rfl⟩

/-- C9 (witness): over the concrete broker list where only the second
broker (id 2) is the controller, the resolved id is `"2"`; and with an
explicit argument `"7"` the list is ignored. -/
theorem C9_controller_default_witness :
    defaultValue []
        [{ id := 1, isController := false }, { id := 2, isController := true }] =
      .ok "2" ∧
    defaultValue ["7"]
        [{ id := 1, isController := false }, { id := 2, isController := true }] =
      .ok "7" := by
  constructor
  · have h := (C9_controller_default
      [{ id := 1, isController := false }, { id := 2, isController := true }]
      (fun _ => [])).2.1 [{ id := 1, isController := false }]
      { id := 2, isController := true } [] rfl (by decide) rfl
    rw [h]
    have h2 : toString (({ id := 2, isController := true } : BrokerSummary).id) = "2" := by
      decide
    rw [h2]
  · exact ((C9_controller_default
      [{ id := 1, isController := false }, { id := 2, isController := true }]
      (fun _ => [])).2.2 "7" []).1

end KaftaBroker

namespace Kafta

/-- In quiet mode `promptNeeded` is the identity on the options. -/
theorem promptNeeded_quiet (o : CreateContextOptions) (c : Context) (p : Prompts)
    (h : o.quiet = true) : promptNeeded o c p = o := by
  unfold promptNeeded
  simp [h]

/-- `promptNeeded` never unsets a provided bootstrap-servers flag. -/
theorem promptNeeded_bootstrap_provided (o : CreateContextOptions) (c : Context)
    (p : Prompts) (h : o.bootstrapServers.provided = true) :
    (promptNeeded o c p).bootstrapServers.provided = true := by
  unfold promptNeeded
  repeat' split_ifs <;> simp_all [StringFlag.setV]

end Kafta

namespace Kafta

/-- C7: in quiet mode, providing `--sasl` without `--username` or without
`--password` always fails validation, so the command errors and the store
is left unchanged; with both credentials provided (and an otherwise valid
quiet invocation: a name without `--current`, no ksql or schema-registry
override, no version string, and a cluster the connection check accepts)
the command succeeds and the persisted context has `UseSASL = true`. -/
theorem C7_quiet_sasl_gate (dial : String → Bool) (connOk : Context → Bool)
    (parse : String → Option String) (p : Prompts)
    (o : CreateContextOptions) (data : KaftaData) :
    (o.quiet = true → o.useSASL.provided = true →
      (o.user.provided = false ∨ o.password.provided = false) →
      validate dial o ≠ .ok () ∧
      (∃ e, (run dial connOk parse p o data).1 = .error e) ∧
      (run dial connOk parse p o data).2 = data) ∧
    (o.quiet = true → o.useSASL.provided = true → o.user.provided = true →
      o.password.provided = true → 0 < o.name.length → o.currContext = false →
      o.ksql.provided = false → o.schemaRegistry.provided = false →
      o.parsedVersion = "" → (∀ c, connOk c = true) →
      ∃ m, (run dial connOk parse p o data).1 =
          .ok (o.name, (data.contexts o.name).isSome) ∧
        (run dial connOk parse p o data).2.contexts o.name = some m ∧
        m.useSASL = true) := by
  constructor
  · intro hq hs hup
    have hval : validate dial o ≠ .ok () := by
      unfold validate
      rcases hup with hu | hp' <;> split_ifs <;> simp_all
    cases hv : validate dial o with
    | error e =>
      refine ⟨?_, ?_, ?_⟩
      · intro hc; exact Except.noConfusion hc
      · exact ⟨e, by simp [run, hv]⟩
      · simp [run, hv]
    | ok u =>
      cases u
      exact absurd hv hval
  · intro hq hs hu hpw hn hcc hk hsr hpv hconn
    have h0 : (o.name.length == 0) = false := by
      simp only [beq_eq_false_iff_ne, ne_eq]
      omega
    have hvalok : validate dial o = .ok () := by
      unfold validate
      simp [h0, hcc, hk, hsr, hq, hs, hu, hpw]
    have hprompt : promptNeeded o ((data.contexts o.name).getD MakeContext) p = o :=
      promptNeeded_quiet _ _ _ hq
    have hpv0 : ¬ o.parsedVersion.length > 0 := by
      rw [hpv]; simp
    obtain ⟨m, hm, hmsasl⟩ : ∃ m,
        modifyContext parse o ((data.contexts o.name).getD MakeContext) = some m ∧
        m.useSASL = true := by
      have hkv : (if o.parsedVersion.length > 0 then parse o.parsedVersion
          else some ((data.contexts o.name).getD MakeContext).kafkaVersion) =
          some ((data.contexts o.name).getD MakeContext).kafkaVersion := by
        simp [hpv0]
      rw [modifyContext_eq, hkv, Option.map_some']
      exact ⟨_, rfl, by simp [hs]⟩
    have hcheck : checkConnection connOk o m = true := by
      unfold checkConnection
      split
      · exact hconn m
      · rfl
    refine ⟨m, ?_, ?_, hmsasl⟩ <;>
      simp [run, hvalok, hcc, hprompt, hm, hcheck]

end Kafta

namespace Kafta

/-- C7 (witness): the quiet `--sasl` invocation without credentials fails
and leaves the empty store unchanged; with credentials and an accepting
cluster it succeeds and persists a context with `UseSASL = true`. -/
theorem C7_quiet_sasl_gate_witness :
    (validate (fun _ => true) quietSaslNoCreds ≠ .ok () ∧
      (∃ e, (run (fun _ => true) (fun _ => true) (fun _ => none) pNone
        quietSaslNoCreds emptyData).1 = .error e) ∧
      (run (fun _ => true) (fun _ => true) (fun _ => none) pNone
        quietSaslNoCreds emptyData).2 = emptyData) ∧
    (∃ m, (run (fun _ => true) (fun _ => true) (fun _ => none) pNone
        quietSaslCreds emptyData).1 =
          .ok (quietSaslCreds.name, (emptyData.contexts quietSaslCreds.name).isSome) ∧
      (run (fun _ => true) (fun _ => true) (fun _ => none) pNone
        quietSaslCreds emptyData).2.contexts quietSaslCreds.name = some m ∧
      m.useSASL = true) := by
  constructor
  · exact (C7_quiet_sasl_gate (fun _ => true) (fun _ => true) (fun _ => none) pNone
      quietSaslNoCreds emptyData).1 rfl rfl (Or.inl rfl)
  · exact (C7_quiet_sasl_gate (fun _ => true) (fun _ => true) (fun _ => none) pNone
      quietSaslCreds emptyData).2 rfl rfl rfl rfl (by decide) rfl rfl rfl rfl
      (fun _ => rfl)

end Kafta

namespace Kafta

/-- C1: if the bootstrap-servers override was explicitly provided and the
protocol-level connection to the merged profile's cluster fails, the
command errors and the contexts map is unchanged (every failure path
returns the store as given); if the bootstrap-servers flag is still
unprovided after interactive completion (it was not in this update), the
whole invocation is independent of the cluster-connection oracle — no
live connectivity check is performed — and may persist without it. -/
theorem C1_bootstrap_connectivity_gate (dial : String → Bool)
    (parse : String → Option String) (p : Prompts)
    (o : CreateContextOptions) (data : KaftaData) :
    (∀ connOk : Context → Bool, o.bootstrapServers.provided = true →
      (∀ c, connOk c = false) →
      (∃ e, (run dial connOk parse p o data).1 = .error e) ∧
      (run dial connOk parse p o data).2 = data) ∧
    (∀ connOk connOk2 : Context → Bool,
      (promptNeeded o ((data.contexts
          (if o.currContext then data.currentContext else o.name)).getD MakeContext)
          p).bootstrapServers.provided = false →
      run dial connOk parse p o data = run dial connOk2 parse p o data) := by
  constructor
  · intro connOk hb hfail
    cases hv : validate dial o with
    | error e => exact ⟨⟨e, by simp [run, hv]⟩, by simp [run, hv]⟩
    | ok u =>
      cases u
      by_cases hc : (o.currContext && data.currentContext.length == 0) = true
      · exact ⟨⟨"no current context is set", by simp [run, hv, hc]⟩,
          by simp [run, hv, hc]⟩
      · have hb2 := promptNeeded_bootstrap_provided o
          ((data.contexts (if o.currContext then data.currentContext else o.name)).getD
            MakeContext) p hb
        cases hm : modifyContext parse
            (promptNeeded o ((data.contexts (if o.currContext then data.currentContext
              else o.name)).getD MakeContext) p)
            ((data.contexts (if o.currContext then data.currentContext else o.name)).getD
              MakeContext) with
        | none =>
          exact ⟨⟨"invalid version", by simp [run, hv, hc, hm]⟩,
            by simp [run, hv, hc, hm]⟩
        | some ctx =>
          have hcheck : checkConnection connOk
              (promptNeeded o ((data.contexts (if o.currContext then data.currentContext
                else o.name)).getD MakeContext) p) ctx = false := by
            simp [checkConnection, hb2, hfail]
          exact ⟨⟨"could not connect to " ++ String.intercalate "," ctx.bootstrapServers,
              by simp [run, hv, hc, hm, hcheck]⟩,
            by simp [run, hv, hc, hm, hcheck]⟩
  · intro connOk connOk2 hnp
    cases hv : validate dial o with
    | error e => simp [run, hv]
    | ok u =>
      cases u
      by_cases hc : (o.currContext && data.currentContext.length == 0) = true
      · simp [run, hv, hc]
      · cases hm : modifyContext parse
            (promptNeeded o ((data.contexts (if o.currContext then data.currentContext
              else o.name)).getD MakeContext) p)
            ((data.contexts (if o.currContext then data.currentContext else o.name)).getD
              MakeContext) with
        | none => simp [run, hv, hc, hm]
        | some ctx => simp [run, hv, hc, hm, checkConnection, hnp]

end Kafta

namespace Kafta

/-- C1 (witness): with `--server` provided and an always-failing cluster
connection the command errors and the empty store is unchanged; with no
`--server` override (still unprovided after quiet-mode completion) the
run does not depend on the connection oracle at all. -/
theorem C1_bootstrap_connectivity_gate_witness :
    ((∃ e, (run (fun _ => true) (fun _ => false) (fun _ => none) pNone
        serverOptions emptyData).1 = .error e) ∧
      (run (fun _ => true) (fun _ => false) (fun _ => none) pNone
        serverOptions emptyData).2 = emptyData) ∧
    run (fun _ => true) (fun _ => false) (fun _ => none) pNone
        noServerOptions emptyData =
      run (fun _ => true) (fun _ => true) (fun _ => none) pNone
        noServerOptions emptyData := by
  constructor
  · exact (C1_bootstrap_connectivity_gate (fun _ => true) (fun _ => none) pNone
      serverOptions emptyData).1 (fun _ => false) rfl (fun _ => rfl)
  · exact (C1_bootstrap_connectivity_gate (fun _ => true) (fun _ => none) pNone
      noServerOptions emptyData).2 (fun _ => false) (fun _ => true) (by decide)

end Kafta
